import Mathlib

/-!
A shallow embedding of the GitHub Repository Metadata Generator
(src/index.js).  Strings are Lean strings (lists of characters); the
JavaScript string operations used by the program (trim, toLowerCase,
split on commas, whitespace-run replacement, substring) are modelled
character by character.  Network calls are modelled by explicit
environments whose fields hold the outcome of each call (`Except` for
fallible calls), so the program's control flow becomes a family of pure
functions over those environments.
-/

namespace MetaGen

/-- Whitespace characters recognised by the model of JavaScript's
whitespace class (the ASCII portion of the class used by both
`trim` and the whitespace-run regular expression in src/index.js). -/
def jsWhitespace (c : Char) : Bool :=
  c == ' ' || c == '\t' || c == '\n' || c == '\r' || c == '\x0b' || c == '\x0c'

/-- Drop the leading whitespace characters of a character list. -/
def dropLeadingWS : List Char → List Char
  | [] => []
  | c :: cs => if jsWhitespace c then dropLeadingWS cs else c :: cs

/-- Model of JavaScript string `trim`: drop leading and trailing whitespace. -/
def trimL (s : List Char) : List Char :=
  (dropLeadingWS ((dropLeadingWS s).reverse)).reverse

/-- Model of JavaScript splitting a string on the comma separator
(an empty input yields one empty piece, as in JavaScript). -/
def splitComma : List Char → List (List Char)
  | [] => [[]]
  | c :: cs =>
    if c == ',' then [] :: splitComma cs
    else
      match splitComma cs with
      | [] => [[c]]
      | p :: ps => (c :: p) :: ps

/-- State machine for replacing each run of whitespace with a single
hyphen: `inRun` records whether the previous character belonged to a
whitespace run whose hyphen was already emitted. -/
def collapseWSGo : Bool → List Char → List Char
  | _, [] => []
  | inRun, c :: cs =>
    if jsWhitespace c then
      if inRun then collapseWSGo true cs else '-' :: collapseWSGo true cs
    else c :: collapseWSGo false cs

/-- Model of the JavaScript global replacement of whitespace runs by a
single hyphen used on each topic piece (src/index.js line 633). -/
def collapseWS (s : List Char) : List Char := collapseWSGo false s

/-- One comma piece of the topics response: trimmed, lowercased, then
whitespace-hyphenated (src/index.js line 633). -/
def processTopicPiece (t : List Char) : List Char :=
  collapseWS ((trimL t).map Char.toLower)

/-- Post-processing of the topics completion returned by the
text-generation service (src/index.js lines 630-636): the response text
is trimmed, split on commas, each piece trimmed, lowercased and
whitespace-hyphenated, empty and over-long results dropped, and at most
the first ten survivors kept, in order. -/
def generateTopics (s : String) : List String :=
  ((((splitComma (trimL s.data)).map processTopicPiece).filter
      (fun t => decide (0 < t.length) && decide (t.length ≤ 50))).take 10).map String.mk

/-- Post-processing of the description completion
(src/index.js line 576): trim, then take the first 350 characters. -/
def generateDescription (s : String) : String :=
  String.mk ((trimL s.data).take 350)

/-- Post-processing of the website completion (src/index.js line 601):
trim only. -/
def generateWebsite (s : String) : String := String.mk (trimL s.data)

/-- Post-processing of the README completion (src/index.js line 667):
trim only. -/
def generateReadme (s : String) : String := String.mk (trimL s.data)

/-- An ASCII uppercase letter. -/
def isAsciiUpper (c : Char) : Bool := decide (c.toNat ≥ 65) && decide (c.toNat ≤ 90)

/-- The per-topic shape stated by the specification: non-empty, at most
50 characters, lowercase (no ASCII uppercase letter) and free of
whitespace. -/
def topicWellFormed (t : String) : Bool :=
  decide (0 < t.length) && decide (t.length ≤ 50) &&
    t.data.all (fun c => !(isAsciiUpper c) && !(jsWhitespace c))

/-- The fields of the hosting platform's repository record that the
program reads (a `RepositorySummary`); `Option` models null or
undefined JavaScript values. -/
structure Repo where
  name : String
  full_name : String
  description : Option String
  homepage : Option String
  topics : Option (List String)
  language : Option String
  isPrivate : Bool
  default_branch : String

/-- JavaScript `v || d` for an optional string `v`: the default is used
when the value is null, undefined or the empty string. -/
def jsOrStr (v : Option String) (d : String) : String :=
  match v with
  | none => d
  | some s => if s == "" then d else s

/-- JavaScript `v || d` for an optional array `v`. -/
def jsOrList (v : Option (List String)) (d : List String) : List String :=
  match v with
  | none => d
  | some l => l

/-- src/index.js line 266: a description is counted missing when it is
null, undefined, or blank after trimming. -/
def missingDescription (repo : Repo) : Bool :=
  match repo.description with
  | none => true
  | some s => s == "" || String.mk (trimL s.data) == ""

/-- src/index.js line 269: a homepage is counted missing when it is
null, undefined, or blank after trimming. -/
def missingWebsite (repo : Repo) : Bool :=
  match repo.homepage with
  | none => true
  | some s => s == "" || String.mk (trimL s.data) == ""

/-- src/index.js line 272: topics are counted missing when the topic
array is null, undefined, or empty. -/
def missingTopics (repo : Repo) : Bool :=
  match repo.topics with
  | none => true
  | some ts => ts.isEmpty

/-- Outcome of the README existence probe (the `getReadme` call):
success, or an error carrying the optional HTTP status of the failure
(`none` models an error object without a status field). -/
abbrev ReadmeProbe := Except (Option Nat) Unit

/-- The Gap Detector (src/index.js lines 265-288): the missing-field
list in program order; a failed README probe contributes its entry only
when the error status is 404, any other failure is swallowed. -/
def computeMissing (repo : Repo) (readmeProbe : ReadmeProbe) : List String :=
  (if missingDescription repo then [("description" : String)] else []) ++
  (if missingWebsite repo then [("website" : String)] else []) ++
  (if missingTopics repo then [("topics" : String)] else []) ++
  (match readmeProbe with
   | .ok _ => []
   | .error st => if st == some 404 then [("README.md" : String)] else [])

/-- One entry of the recursive git tree. -/
structure TreeItem where
  type : String
  path : String

/-- The parsed manifest fields the generators read. -/
structure PackageJson where
  pkgName : Option String
  pkgDescription : Option String
  dependencies : List String

/-- The attached build-config file: its name and decoded content. -/
structure ConfigFile where
  name : String
  content : String

/-- The derived per-run record built by the Context Builder
(src/index.js lines 480-490 plus the optional attachments). -/
structure RepositoryContext where
  name : String
  fullName : String
  description : String
  language : String
  topics : List String
  isPrivate : Bool
  defaultBranch : String
  files : List String
  packageJson : Option PackageJson
  configFile : Option ConfigFile

/-- Environment of hosting-platform reads used by the Context Builder:
the recursive-tree fetch outcome, the per-path file-content fetch
outcome (`Except.error` models a thrown fetch, `Except.ok none` a
response whose content field is absent or empty, i.e. falsy, and
`Except.ok (some c)` a response with decoded content `c`), and the JSON
parse of the manifest (`none` models a parse failure, which the code
catches). -/
structure FetchEnv where
  getTree : Except Unit (List TreeItem)
  getContent : String → Except Unit (Option String)
  parsePackageJson : String → Option PackageJson

/-- The fixed priority list of recognized build-config filenames
(src/index.js lines 523-530). -/
def configFiles : List String :=
  [("Cargo.toml" : String), ("pyproject.toml" : String), ("setup.py" : String),
   ("go.mod" : String), ("pom.xml" : String), ("build.gradle" : String)]

/-- The first-match-wins config probe (src/index.js lines 532-549): try
each name in order and attach the first whose fetch succeeds with
truthy content, swallowing individual failures. -/
def findConfig (g : String → Except Unit (Option String)) : List String → Option ConfigFile
  | [] => none
  | f :: rest =>
    match g f with
    | .ok (some c) => some ⟨f, c⟩
    | _ => findConfig g rest

/-- The seeded context record (src/index.js lines 480-490). -/
def seedContext (repo : Repo) : RepositoryContext :=
  { name := repo.name
    fullName := repo.full_name
    description := jsOrStr repo.description ("")
    language := jsOrStr repo.language ("Unknown")
    topics := jsOrList repo.topics []
    isPrivate := repo.isPrivate
    defaultBranch := repo.default_branch
    files := []
    packageJson := none
    configFile := none }

/-- `getRepositoryContext` (src/index.js lines 479-555) as a pure
function of the fetch environment.  It returns the built context
together with a flag recording whether the degraded-context warning was
logged (the outer catch).  Only the tree fetch can reach the outer
catch; the manifest and config probes catch their own failures. -/
def getRepositoryContext (env : FetchEnv) (repo : Repo) : RepositoryContext × Bool :=
  match env.getTree with
  | .error _ => (seedContext repo, true)
  | .ok tree =>
    let files := ((tree.filter (fun item => item.type == "blob")).map TreeItem.path).take 100
    let pkg : Option PackageJson :=
      match env.getContent ("package.json") with
      | .ok (some raw) => env.parsePackageJson raw
      | _ => none
    let cfg := findConfig env.getContent configFiles
    ({ seedContext repo with files := files, packageJson := pkg, configFile := cfg }, false)

/-- The payload of a successful fresh README lookup in the Apply Step. -/
structure ExistingReadme where
  sha : String

/-- A hosting-platform call issued by the Apply Step: the two metadata
writes, the fresh README lookup, and the file write (whose `contentRaw`
is the text that the program base64-encodes for transport). -/
inductive ApplyCall where
  | updateRepo (description homepage : Option String)
  | replaceAllTopics (names : List String)
  | getReadme
  | createOrUpdateFile (path message contentRaw : String) (sha : Option String)
deriving DecidableEq

/-- The generated-metadata record; only the user-selected fields are
present (src/index.js lines 340-364). -/
structure GeneratedData where
  description : Option String
  website : Option String
  topics : Option (List String)
  readme : Option String

/-- Outcomes of the Apply Step's hosting-platform calls. -/
structure ApplyEnv where
  updateRepo : Except Unit Unit
  replaceAllTopics : Except Unit Unit
  getReadme : Except Unit ExistingReadme
  putFile : Except Unit Unit

/-- What the Apply Step produced: the calls issued in order, whether
the per-field README error was reported, whether the success banner was
printed, and the process exit code (1 through the outer catch,
otherwise 0 when the run completes). -/
structure ApplyResult where
  calls : List ApplyCall
  readmeErrorReported : Bool
  successBanner : Bool
  exitCode : Nat
deriving DecidableEq

/-- The single file write of the README sub-step (src/index.js lines
444-463): an update carrying the prior sha when the fresh lookup
succeeded, otherwise a create without sha; the content is the raw
generated text in both cases. -/
def readmeWriteCall (lookup : Except Unit ExistingReadme) (text : String) : ApplyCall :=
  match lookup with
  | .ok r => ApplyCall.createOrUpdateFile ("README.md")
      ("Update README.md via metadata generator") text (some r.sha)
  | .error _ => ApplyCall.createOrUpdateFile ("README.md")
      ("Add README.md via metadata generator") text none

/-- The README sub-step (src/index.js lines 434-468): the fresh lookup
— any failure of which is absorbed as absence — then exactly one file
write; the second component records whether the inner catch reported a
per-field error (the file write failed). -/
def applyReadme (env : ApplyEnv) (text : String) : List ApplyCall × Bool :=
  ([ApplyCall.getReadme, readmeWriteCall env.getReadme text],
   match env.putFile with
   | .ok _ => false
   | .error _ => true)

/-- JavaScript truthiness of an optional string field: absent, null and
empty strings are falsy. -/
def jsTruthyStrOpt : Option String → Bool
  | none => false
  | some s => !(s == "")

/-- Keep an optional string field only when it is truthy, as the merged
metadata-update payload does (src/index.js lines 407-413). -/
def jsKeepTruthy : Option String → Option String
  | none => none
  | some s => if s == "" then none else some s

/-- The README phase and run completion (src/index.js lines 433-472):
the sub-step runs only when the generated README text is truthy, and
the banner prints whether or not the sub-step reported an error. -/
def applyReadmePhase (gen : GeneratedData) (env : ApplyEnv)
    (done : List ApplyCall) : ApplyResult :=
  match gen.readme with
  | none => ⟨done, false, true, 0⟩
  | some text =>
    if text == "" then ⟨done, false, true, 0⟩
    else ⟨done ++ (applyReadme env text).1, (applyReadme env text).2, true, 0⟩

/-- The topics phase (src/index.js lines 424-431): a failing topics
replacement reaches the outer catch and exits with code 1. -/
def applyTopicsPhase (gen : GeneratedData) (env : ApplyEnv)
    (done : List ApplyCall) : ApplyResult :=
  match gen.topics with
  | none => applyReadmePhase gen env done
  | some names =>
    match env.replaceAllTopics with
    | .error _ => ⟨done ++ [ApplyCall.replaceAllTopics names], false, false, 1⟩
    | .ok _ => applyReadmePhase gen env (done ++ [ApplyCall.replaceAllTopics names])

/-- The Apply Step (src/index.js lines 404-476): description and
website merged into one metadata update carrying the truthy fields and
sent only when at least one is truthy, then topics, then the README
sub-step, then the success banner; errors of the first two calls reach
the outer catch. -/
def applyStep (gen : GeneratedData) (env : ApplyEnv) : ApplyResult :=
  if jsTruthyStrOpt gen.description || jsTruthyStrOpt gen.website then
    match env.updateRepo with
    | .error _ =>
      ⟨[ApplyCall.updateRepo (jsKeepTruthy gen.description) (jsKeepTruthy gen.website)],
       false, false, 1⟩
    | .ok _ =>
      applyTopicsPhase gen env
        [ApplyCall.updateRepo (jsKeepTruthy gen.description) (jsKeepTruthy gen.website)]
  else applyTopicsPhase gen env []

/-- The metadata-update calls the Apply Step issues before the topics
phase. -/
def metaCalls (gen : GeneratedData) : List ApplyCall :=
  if jsTruthyStrOpt gen.description || jsTruthyStrOpt gen.website then
    [ApplyCall.updateRepo (jsKeepTruthy gen.description) (jsKeepTruthy gen.website)]
  else []

/-- The topics calls the Apply Step issues before the README phase. -/
def topicsCalls (gen : GeneratedData) : List ApplyCall :=
  match gen.topics with
  | none => []
  | some names => [ApplyCall.replaceAllTopics names]

/-- One checkbox entry of the field-selection prompt. -/
structure CheckboxChoice where
  name : String
  value : String
  checked : Bool
deriving DecidableEq

/-- The field-selection checkbox list (src/index.js lines 304-328): a
field's box is pre-checked exactly when the Gap Detector listed it. -/
def fieldChoices (missing : List String) : List CheckboxChoice :=
  [⟨("Description"), ("description"), missing.contains ("description")⟩,
   ⟨("Website"), ("website"), missing.contains ("website")⟩,
   ⟨("Topics"), ("topics"), missing.contains ("topics")⟩,
   ⟨("README.md"), ("readme"), missing.contains ("README.md")⟩]

/-- The user inputs consumed between the Gap Detector and the Apply
Step: the regenerate-anyway confirmation, the checkbox selection, and
the final apply confirmation. -/
structure UserChoices where
  continueAnyway : Bool
  picked : List String
  applyConfirm : Bool

/-- The raw completions returned by the text-generation service for the
four generators. -/
structure GenOutputs where
  descriptionText : String
  websiteText : String
  topicsText : String
  readmeText : String

/-- Observable outcome of a run from the Gap Detector onward. -/
structure RunTrace where
  confirmRegenAsked : Bool
  checkboxShown : Option (List CheckboxChoice)
  context : Option RepositoryContext
  generatorCalls : List String
  applied : Option ApplyResult
  exitCode : Nat

/-- The generated-metadata record assembled from the selected fields
(src/index.js lines 340-364). -/
def buildGenerated (picked : List String) (g : GenOutputs) : GeneratedData :=
  { description := if picked.contains ("description")
      then some (generateDescription g.descriptionText) else none
    website := if picked.contains ("website")
      then some (generateWebsite g.websiteText) else none
    topics := if picked.contains ("topics")
      then some (generateTopics g.topicsText) else none
    readme := if picked.contains ("readme")
      then some (generateReadme g.readmeText) else none }

/-- The generator calls issued, in program order
(src/index.js lines 342-364). -/
def generatorCallOrder (picked : List String) : List String :=
  [("description" : String), ("website" : String), ("topics" : String),
   ("readme" : String)].filter (fun f => picked.contains f)

/-- The run from the Gap Detector onward (src/index.js lines 264-476):
when nothing is missing the user must first confirm regeneration and a
refusal exits cleanly; then the checkbox selection, the empty-selection
exit, the context build, the generators for the selected fields, the
apply confirmation, and the Apply Step. -/
def runPipeline (repo : Repo) (p : ReadmeProbe) (u : UserChoices)
    (fenv : FetchEnv) (g : GenOutputs) (aenv : ApplyEnv) : RunTrace :=
  let missing := computeMissing repo p
  if missing.isEmpty && !u.continueAnyway then
    ⟨true, none, none, [], none, 0⟩
  else
    if u.picked.isEmpty then
      ⟨missing.isEmpty, some (fieldChoices missing), none, [], none, 0⟩
    else
      if !u.applyConfirm then
        ⟨missing.isEmpty, some (fieldChoices missing),
         some (getRepositoryContext fenv repo).1, generatorCallOrder u.picked, none, 0⟩
      else
        ⟨missing.isEmpty, some (fieldChoices missing),
         some (getRepositoryContext fenv repo).1, generatorCallOrder u.picked,
         some (applyStep (buildGenerated u.picked g) aenv),
         (applyStep (buildGenerated u.picked g) aenv).exitCode⟩

/-- A repository record with none of the four metadata fields. -/
def repoScenarioA : Repo :=
  { name := "demo"
    full_name := "o/demo"
    description := none
    homepage := none
    topics := none
    language := none
    isPrivate := false
    default_branch := "main" }

/-- A repository record with all four metadata fields populated. -/
def repoScenarioB : Repo :=
  { name := "demo2"
    full_name := "o/demo2"
    description := some ("X")
    homepage := some ("https://x.com")
    topics := some [("a" : String)]
    language := some ("js")
    isPrivate := false
    default_branch := "main" }

/-- A fetch environment in which every hosting-platform read throws. -/
def fetchEnvFail : FetchEnv :=
  { getTree := Except.error ()
    getContent := fun _ => Except.error ()
    parsePackageJson := fun _ => none }

/-- A fetch environment exposing two recognized config filenames. -/
def fetchEnvTwoConfigs : FetchEnv :=
  { getTree := Except.ok []
    getContent := fun p =>
      if p == "pyproject.toml" then Except.ok (some ("py-content"))
      else if p == "go.mod" then Except.ok (some ("go-content"))
      else Except.error ()
    parsePackageJson := fun _ => none }

/-- An apply environment in which every call succeeds and the fresh
README lookup fails. -/
def applyEnvOk : ApplyEnv :=
  { updateRepo := Except.ok ()
    replaceAllTopics := Except.ok ()
    getReadme := Except.error ()
    putFile := Except.ok () }

/-- An apply environment in which the metadata update throws. -/
def applyEnvMetaFail : ApplyEnv :=
  { updateRepo := Except.error ()
    replaceAllTopics := Except.ok ()
    getReadme := Except.error ()
    putFile := Except.ok () }

/-- An apply environment in which only the README file write throws. -/
def applyEnvReadmeFail : ApplyEnv :=
  { updateRepo := Except.ok ()
    replaceAllTopics := Except.ok ()
    getReadme := Except.ok ⟨("sha-prior")⟩
    putFile := Except.error () }

/-- A generated-metadata record with all four fields present. -/
def genAll : GeneratedData :=
  { description := some ("d")
    website := some ("w")
    topics := some [("t" : String)]
    readme := some ("r") }

/-- Concrete completions for the pipeline witnesses. -/
def genOutputsDemo : GenOutputs :=
  { descriptionText := "a demo description"
    websiteText := "https://demo.example"
    topicsText := "alpha, beta"
    readmeText := "hello" }

theorem length_mk (l : List Char) : (String.mk l).length = l.length := rfl

theorem toLower_not_upper (c : Char) : isAsciiUpper (Char.toLower c) = false := by
  show isAsciiUpper
      (if c.toNat ≥ 65 ∧ c.toNat ≤ 90 then Char.ofNat (c.toNat + 32) else c) = false
  by_cases h : c.toNat ≥ 65 ∧ c.toNat ≤ 90
  · rw [if_pos h]
    obtain ⟨h1, h2⟩ := h
    set n := c.toNat with hn
    clear hn
    interval_cases n <;> decide
  · rw [if_neg h]
    unfold isAsciiUpper
    simp only [Bool.and_eq_false_iff, decide_eq_false_iff_not]
    omega

theorem mem_collapseWSGo (c : Char) (s : List Char) :
    ∀ b, c ∈ collapseWSGo b s → c = '-' ∨ c ∈ s := by
  induction s with
  | nil => intro b h; simp [collapseWSGo] at h
  | cons a s ih =>
    intro b h
    unfold collapseWSGo at h
    by_cases hw : jsWhitespace a
    · rw [if_pos hw] at h
      cases b with
      | true =>
        simp only [if_pos rfl] at h
        rcases ih true h with h1 | h1
        · exact Or.inl h1
        · exact Or.inr (List.mem_cons_of_mem a h1)
      | false =>
        rw [if_neg (by decide)] at h
        rcases List.mem_cons.mp h with h1 | h1
        · exact Or.inl h1
        · rcases ih true h1 with h2 | h2
          · exact Or.inl h2
          · exact Or.inr (List.mem_cons_of_mem a h2)
    · rw [if_neg hw] at h
      rcases List.mem_cons.mp h with h1 | h1
      · exact Or.inr (h1 ▸ List.mem_cons_self a s)
      · rcases ih false h1 with h2 | h2
        · exact Or.inl h2
        · exact Or.inr (List.mem_cons_of_mem a h2)

theorem not_ws_of_mem_collapseWSGo (c : Char) (s : List Char) :
    ∀ b, c ∈ collapseWSGo b s → jsWhitespace c = false := by
  induction s with
  | nil => intro b h; simp [collapseWSGo] at h
  | cons a s ih =>
    intro b h
    unfold collapseWSGo at h
    by_cases hw : jsWhitespace a
    · rw [if_pos hw] at h
      cases b with
      | true =>
        simp only [if_pos rfl] at h
        exact ih true h
      | false =>
        rw [if_neg (by decide)] at h
        rcases List.mem_cons.mp h with h1 | h1
        · subst h1; decide
        · exact ih true h1
    · rw [if_neg hw] at h
      rcases List.mem_cons.mp h with h1 | h1
      · subst h1; exact Bool.eq_false_iff.mpr hw
      · exact ih false h1

theorem processTopicPiece_wellFormed (piece : List Char)
    (h0 : 0 < (processTopicPiece piece).length)
    (h50 : (processTopicPiece piece).length ≤ 50) :
    topicWellFormed (String.mk (processTopicPiece piece)) = true := by
  unfold topicWellFormed
  simp only [length_mk, Bool.and_eq_true, decide_eq_true_eq, List.all_eq_true]
  refine ⟨⟨h0, h50⟩, ?_⟩
  intro c hc
  have hc' : c ∈ collapseWSGo false ((trimL piece).map Char.toLower) := hc
  have hws := not_ws_of_mem_collapseWSGo c _ false hc'
  have hup : isAsciiUpper c = false := by
    rcases mem_collapseWSGo c _ false hc' with h1 | h1
    · subst h1; decide
    · rcases List.mem_map.mp h1 with ⟨d, _, rfl⟩
      exact toLower_not_upper d
  simp [hws, hup]

/-- C1: the topics post-processing splits the response on commas; each
piece is trimmed, lowercased, its whitespace runs replaced by single
hyphens; empty pieces and pieces longer than 50 characters are dropped
and at most the first ten survivors are kept, so every returned topic is
non-empty, at most 50 characters, lowercase and whitespace-free, and the
list has length at most ten.  No characters other than whitespace are
altered: on the Scenario C response the token with exclamation marks is
kept as-is and only whitespace is hyphenated. -/
theorem C1_generateTopics_postprocessing (s : String) :
    (generateTopics s).all topicWellFormed = true ∧
    (generateTopics s).length ≤ 10 ∧
    generateTopics ("Web App, react , Node.js!!, ")
      = [("web-app" : String), ("react" : String), ("node.js!!" : String)] := by
  refine ⟨?_, ?_, by decide⟩
  · rw [List.all_eq_true]
    intro t ht
    rcases List.mem_map.mp ht with ⟨u, hu, rfl⟩
    have hu' := List.mem_of_mem_take hu
    have hp := List.of_mem_filter hu'
    have hmem := (List.mem_filter.mp hu').1
    rcases List.mem_map.mp hmem with ⟨piece, _, rfl⟩
    simp only [Bool.and_eq_true, decide_eq_true_eq] at hp
    exact processTopicPiece_wellFormed piece hp.1 hp.2
  · unfold generateTopics
    rw [List.length_map]
    exact List.length_take_le _ _

/-- C2: the description post-processing returns the response trimmed and
hard-truncated to 350 characters: the result has length at most 350, is
a prefix of the trimmed response, and equals the trimmed response
whenever that already fits in 350 characters. -/
theorem C2_generateDescription_truncation (s : String) :
    (generateDescription s).length ≤ 350 ∧
    (generateDescription s).data <+: trimL s.data ∧
    ((trimL s.data).length ≤ 350 → generateDescription s = String.mk (trimL s.data)) := by
  refine ⟨?_, ?_, ?_⟩
  · show ((trimL s.data).take 350).length ≤ 350
    exact List.length_take_le _ _
  · exact List.take_prefix _ _
  · intro h
    unfold generateDescription
    rw [List.take_of_length_le h]

theorem C2_generateDescription_witness :
    (generateDescription ("  A concise summary.  ")).length ≤ 350 ∧
    generateDescription ("  A concise summary.  ")
      = String.mk (trimL ("  A concise summary.  ").data) :=
  ⟨(C2_generateDescription_truncation ("  A concise summary.  ")).1,
   (C2_generateDescription_truncation ("  A concise summary.  ")).2.2 (by decide)⟩

theorem mk_eq_empty_iff (l : List Char) : (String.mk l = "") ↔ l = [] := by
  constructor
  · intro h
    exact congrArg String.data h
  · intro h
    rw [h]

theorem blank_or_iff (s : String) :
    ((s == "" || String.mk (trimL s.data) == "") = true) ↔ trimL s.data = [] := by
  simp only [Bool.or_eq_true, beq_iff_eq, mk_eq_empty_iff]
  constructor
  · rintro (h | h)
    · subst h
      rfl
    · exact h
  · intro h
    exact Or.inr h

theorem missingDescription_iff (repo : Repo) :
    missingDescription repo = true ↔
      (repo.description = none ∨ ∃ s, repo.description = some s ∧ trimL s.data = []) := by
  cases hd : repo.description with
  | none => simp [missingDescription, hd]
  | some s =>
    simp only [missingDescription, hd, blank_or_iff]
    simp

theorem missingWebsite_iff (repo : Repo) :
    missingWebsite repo = true ↔
      (repo.homepage = none ∨ ∃ s, repo.homepage = some s ∧ trimL s.data = []) := by
  cases hd : repo.homepage with
  | none => simp [missingWebsite, hd]
  | some s =>
    simp only [missingWebsite, hd, blank_or_iff]
    simp

theorem missingTopics_iff (repo : Repo) :
    missingTopics repo = true ↔ (repo.topics = none ∨ repo.topics = some []) := by
  cases ht : repo.topics with
  | none => simp [missingTopics, ht]
  | some ts => cases ts <;> simp [missingTopics, ht]

theorem mem_singleton_if (b : Bool) (x y : String) :
    (y ∈ if b then [x] else ([] : List String)) ↔ (b = true ∧ y = x) := by
  cases b <;> simp

theorem mem_computeMissing (repo : Repo) (p : ReadmeProbe) (y : String) :
    y ∈ computeMissing repo p ↔
      (missingDescription repo = true ∧ y = ("description" : String)) ∨
      (missingWebsite repo = true ∧ y = ("website" : String)) ∨
      (missingTopics repo = true ∧ y = ("topics" : String)) ∨
      (p = Except.error (some 404) ∧ y = ("README.md" : String)) := by
  unfold computeMissing
  cases p with
  | ok u =>
    simp only [List.mem_append, mem_singleton_if]
    simp [or_assoc]
  | error st =>
    by_cases h : st = some 404
    · subst h
      simp only [List.mem_append, mem_singleton_if]
      simp [or_assoc]
    · have hb : (st == some 404) = false := by simpa using h
      simp only [hb, List.mem_append, mem_singleton_if]
      simp [or_assoc, h]

/-- C5: the Gap Detector marks the description missing exactly when it
is null or blank after trimming, the website exactly when the homepage
is null or blank after trimming, the topics exactly when the topic
array is null or empty, and the README exactly when the existence probe
fails with status 404 — any other probe outcome leaves the README entry
out and is swallowed.  A repository with none of the four fields and a
404 probe yields the full list, in program order (Scenario A). -/
theorem C5_gapDetector_missingFields (repo : Repo) (p : ReadmeProbe) :
    (("description" : String) ∈ computeMissing repo p ↔
      (repo.description = none ∨ ∃ s, repo.description = some s ∧ trimL s.data = [])) ∧
    (("website" : String) ∈ computeMissing repo p ↔
      (repo.homepage = none ∨ ∃ s, repo.homepage = some s ∧ trimL s.data = [])) ∧
    (("topics" : String) ∈ computeMissing repo p ↔
      (repo.topics = none ∨ repo.topics = some [])) ∧
    (("README.md" : String) ∈ computeMissing repo p ↔ p = Except.error (some 404)) ∧
    (repo.description = none → repo.homepage = none → repo.topics = none →
      p = Except.error (some 404) →
      computeMissing repo p = [("description" : String), ("website" : String),
        ("topics" : String), ("README.md" : String)]) := by
  refine ⟨?_, ?_, ?_, ?_, ?_⟩
  · rw [mem_computeMissing, ← missingDescription_iff]
    simp
  · rw [mem_computeMissing, ← missingWebsite_iff]
    simp
  · rw [mem_computeMissing, ← missingTopics_iff]
    simp
  · rw [mem_computeMissing]
    simp
  · intro h1 h2 h3 h4
    subst h4
    unfold computeMissing missingDescription missingWebsite missingTopics
    rw [h1, h2, h3]
    rfl

theorem C5_gapDetector_witness :
    computeMissing repoScenarioA (Except.error (some 404))
      = [("description" : String), ("website" : String),
         ("topics" : String), ("README.md" : String)] :=
  (C5_gapDetector_missingFields repoScenarioA (Except.error (some 404))).2.2.2.2
    rfl rfl rfl rfl

/-- C3: the Context Builder never raises: every fetch environment
yields a context record whose summary fields are seeded from the
repository record, and when the tree fetch throws the result is exactly
the seeded record — empty file list, no manifest, no config file — with
the warning logged rather than the failure propagated. -/
theorem C3_contextBuilder_neverRaises (env : FetchEnv) (repo : Repo) :
    (env.getTree = Except.error () →
      getRepositoryContext env repo
        = ({ name := repo.name
             fullName := repo.full_name
             description := jsOrStr repo.description ("")
             language := jsOrStr repo.language ("Unknown")
             topics := jsOrList repo.topics []
             isPrivate := repo.isPrivate
             defaultBranch := repo.default_branch
             files := []
             packageJson := none
             configFile := none }, true)) ∧
    ((getRepositoryContext env repo).1.name = repo.name ∧
     (getRepositoryContext env repo).1.fullName = repo.full_name ∧
     (getRepositoryContext env repo).1.description = jsOrStr repo.description ("") ∧
     (getRepositoryContext env repo).1.language = jsOrStr repo.language ("Unknown") ∧
     (getRepositoryContext env repo).1.topics = jsOrList repo.topics [] ∧
     (getRepositoryContext env repo).1.isPrivate = repo.isPrivate ∧
     (getRepositoryContext env repo).1.defaultBranch = repo.default_branch) := by
  constructor
  · intro h
    unfold getRepositoryContext
    rw [h]
    rfl
  · cases ht : env.getTree with
    | error e =>
      unfold getRepositoryContext
      rw [ht]
      exact ⟨rfl, rfl, rfl, rfl, rfl, rfl, rfl⟩
    | ok t =>
      unfold getRepositoryContext
      rw [ht]
      exact ⟨rfl, rfl, rfl, rfl, rfl, rfl, rfl⟩

theorem C3_contextBuilder_witness :
    getRepositoryContext fetchEnvFail repoScenarioA
      = ({ name := ("demo" : String)
           fullName := ("o/demo" : String)
           description := ""
           language := ("Unknown" : String)
           topics := []
           isPrivate := false
           defaultBranch := ("main" : String)
           files := []
           packageJson := none
           configFile := none }, true) :=
  (C3_contextBuilder_neverRaises fetchEnvFail repoScenarioA).1 rfl

theorem findConfig_eq_first (g : String → Except Unit (Option String)) :
    ∀ (l1 : List String) (f c : String) (l2 : List String),
      g f = Except.ok (some c) →
      (∀ f2, f2 ∈ l1 → ∀ c2, g f2 ≠ Except.ok (some c2)) →
      findConfig g (l1 ++ f :: l2) = some ⟨f, c⟩ := by
  intro l1
  induction l1 with
  | nil =>
    intro f c l2 hf _
    simp only [List.nil_append]
    unfold findConfig
    rw [hf]
  | cons a l ih =>
    intro f c l2 hf hnone
    simp only [List.cons_append]
    unfold findConfig
    cases hg : g a with
    | error e =>
      exact ih f c l2 hf (fun f2 h2 => hnone f2 (List.mem_cons_of_mem a h2))
    | ok v =>
      cases v with
      | none =>
        exact ih f c l2 hf (fun f2 h2 => hnone f2 (List.mem_cons_of_mem a h2))
      | some c2 =>
        exact absurd hg (hnone a (List.mem_cons_self a l) c2)

theorem findConfig_sound (g : String → Except Unit (Option String)) :
    ∀ (l : List String) (cf : ConfigFile), findConfig g l = some cf →
      cf.name ∈ l ∧ g cf.name = Except.ok (some cf.content) := by
  intro l
  induction l with
  | nil =>
    intro cf h
    simp [findConfig] at h
  | cons a l ih =>
    intro cf h
    unfold findConfig at h
    cases hg : g a with
    | error e =>
      rw [hg] at h
      obtain ⟨h1, h2⟩ := ih cf h
      exact ⟨List.mem_cons_of_mem a h1, h2⟩
    | ok v =>
      cases v with
      | none =>
        rw [hg] at h
        obtain ⟨h1, h2⟩ := ih cf h
        exact ⟨List.mem_cons_of_mem a h1, h2⟩
      | some c2 =>
        rw [hg] at h
        cases h
        exact ⟨List.mem_cons_self a l, hg⟩

theorem findConfig_congr (g g2 : String → Except Unit (Option String)) :
    ∀ (l : List String), (∀ f, f ∈ l → g f = g2 f) →
      findConfig g l = findConfig g2 l := by
  intro l
  induction l with
  | nil => intro _; rfl
  | cons a l ih =>
    intro hagree
    unfold findConfig
    rw [hagree a (List.mem_cons_self a l)]
    cases g2 a with
    | error e => exact ih (fun f hf => hagree f (List.mem_cons_of_mem a hf))
    | ok v =>
      cases v with
      | none => exact ih (fun f hf => hagree f (List.mem_cons_of_mem a hf))
      | some c => rfl

theorem getRepositoryContext_configFile (env : FetchEnv) (repo : Repo)
    (t : List TreeItem) (htree : env.getTree = Except.ok t) :
    (getRepositoryContext env repo).1.configFile
      = findConfig env.getContent configFiles := by
  unfold getRepositoryContext
  rw [htree]

theorem getRepositoryContext_packageJson (env : FetchEnv) (repo : Repo)
    (t : List TreeItem) (htree : env.getTree = Except.ok t) :
    (getRepositoryContext env repo).1.packageJson
      = (match env.getContent ("package.json") with
         | .ok (some raw) => env.parsePackageJson raw
         | _ => none) := by
  unfold getRepositoryContext
  rw [htree]

/-- C4: the Context Builder attaches at most one build-config file;
when a recognized name is exposed (its fetch succeeds with content) and
no earlier name in the fixed priority list is exposed, that earliest
exposed file is the one attached, the scan stopping there; and the
manifest and the config file are attached or omitted independently:
each of the two attachments is determined by its own probes alone. -/
theorem C4_configFile_priority (env : FetchEnv) (repo : Repo)
    (t : List TreeItem) (htree : env.getTree = Except.ok t) :
    (∀ (l1 : List String) (f c : String) (l2 : List String),
        configFiles = l1 ++ f :: l2 →
        env.getContent f = Except.ok (some c) →
        (∀ f2, f2 ∈ l1 → ∀ c2, env.getContent f2 ≠ Except.ok (some c2)) →
        (getRepositoryContext env repo).1.configFile = some ⟨f, c⟩) ∧
    ((getRepositoryContext env repo).1.configFile = none ∨
      ∃ cf, (getRepositoryContext env repo).1.configFile = some cf ∧
        cf.name ∈ configFiles ∧ env.getContent cf.name = Except.ok (some cf.content)) ∧
    (∀ (env2 : FetchEnv) (t2 : List TreeItem), env2.getTree = Except.ok t2 →
      ((∀ f, f ∈ configFiles → env2.getContent f = env.getContent f) →
        (getRepositoryContext env2 repo).1.configFile
          = (getRepositoryContext env repo).1.configFile) ∧
      (env2.getContent ("package.json") = env.getContent ("package.json") →
        env2.parsePackageJson = env.parsePackageJson →
        (getRepositoryContext env2 repo).1.packageJson
          = (getRepositoryContext env repo).1.packageJson)) := by
  refine ⟨?_, ?_, ?_⟩
  · intro l1 f c l2 hsplit hf hnone
    rw [getRepositoryContext_configFile env repo t htree, hsplit]
    exact findConfig_eq_first env.getContent l1 f c l2 hf hnone
  · rw [getRepositoryContext_configFile env repo t htree]
    cases hcf : findConfig env.getContent configFiles with
    | none => exact Or.inl rfl
    | some cf =>
      obtain ⟨h1, h2⟩ := findConfig_sound env.getContent configFiles cf hcf
      exact Or.inr ⟨cf, rfl, h1, h2⟩
  · intro env2 t2 htree2
    constructor
    · intro hagree
      rw [getRepositoryContext_configFile env repo t htree,
        getRepositoryContext_configFile env2 repo t2 htree2]
      exact findConfig_congr env2.getContent env.getContent configFiles hagree
    · intro hpkg hparse
      rw [getRepositoryContext_packageJson env repo t htree,
        getRepositoryContext_packageJson env2 repo t2 htree2, hpkg, hparse]

theorem C4_configFile_witness :
    (getRepositoryContext fetchEnvTwoConfigs repoScenarioA).1.configFile
      = some ⟨("pyproject.toml" : String), ("py-content" : String)⟩ :=
  (C4_configFile_priority fetchEnvTwoConfigs repoScenarioA [] rfl).1
    [("Cargo.toml" : String)] ("pyproject.toml") ("py-content")
    [("setup.py" : String), ("go.mod" : String), ("pom.xml" : String),
     ("build.gradle" : String)]
    rfl rfl
    (by
      intro f2 hf2 c2 h
      rcases List.mem_singleton.mp hf2 with rfl
      simp [fetchEnvTwoConfigs] at h)

theorem applyReadme_fst (env : ApplyEnv) (text : String) :
    (applyReadme env text).1
      = [ApplyCall.getReadme, readmeWriteCall env.getReadme text] := rfl

theorem applyReadme_snd_error (env : ApplyEnv) (text : String)
    (h : env.putFile = Except.error ()) : (applyReadme env text).2 = true := by
  unfold applyReadme
  rw [h]

theorem applyReadme_snd_ok (env : ApplyEnv) (text : String)
    (h : env.putFile = Except.ok ()) : (applyReadme env text).2 = false := by
  unfold applyReadme
  rw [h]

theorem applyTopicsPhase_ok (gen : GeneratedData) (env : ApplyEnv)
    (done : List ApplyCall)
    (htop : ∀ names, gen.topics = some names → env.replaceAllTopics = Except.ok ()) :
    applyTopicsPhase gen env done = applyReadmePhase gen env (done ++ topicsCalls gen) := by
  cases htp : gen.topics with
  | none => simp [applyTopicsPhase, topicsCalls, htp]
  | some names =>
    cases hrt : env.replaceAllTopics with
    | error e =>
      rw [htop names htp] at hrt
      exact Except.noConfusion hrt
    | ok u => simp [applyTopicsPhase, topicsCalls, htp, hrt]

theorem applyStep_ok_meta (gen : GeneratedData) (env : ApplyEnv)
    (hmeta : (jsTruthyStrOpt gen.description || jsTruthyStrOpt gen.website) = true →
      env.updateRepo = Except.ok ()) :
    applyStep gen env = applyTopicsPhase gen env (metaCalls gen) := by
  by_cases hm : (jsTruthyStrOpt gen.description || jsTruthyStrOpt gen.website) = true
  · cases hup : env.updateRepo with
    | error e =>
      rw [hmeta hm] at hup
      exact Except.noConfusion hup
    | ok u => simp [applyStep, metaCalls, hm, hup]
  · have hm2 : (jsTruthyStrOpt gen.description || jsTruthyStrOpt gen.website) = false :=
      Bool.eq_false_iff.mpr hm
    simp [applyStep, metaCalls, hm2]

theorem applyReadmePhase_some (gen : GeneratedData) (env : ApplyEnv)
    (done : List ApplyCall) (text : String) (hr : gen.readme = some text)
    (htext : (text == "") = false) :
    applyReadmePhase gen env done
      = ⟨done ++ (applyReadme env text).1, (applyReadme env text).2, true, 0⟩ := by
  simp [applyReadmePhase, hr, htext]

/-- C6: in the Apply Step's README sub-step the program re-checks
README existence with a fresh lookup, treating every lookup failure —
404 or not — as absence; a successful lookup leads to an update call
carrying the prior file's sha, a failed one to a create call with no
sha, and in both cases the content sent is the raw generated text
(which the transport layer base64-encodes); the decision is taken
independently of the Gap Detector's earlier probe, which does not
influence the apply trace at all. -/
theorem C6_readme_fresh_lookup (env : ApplyEnv) (text : String) :
    (∀ e, env.getReadme = Except.error e →
      (applyReadme env text).1
        = [ApplyCall.getReadme,
           ApplyCall.createOrUpdateFile ("README.md")
             ("Add README.md via metadata generator") text none]) ∧
    (∀ r, env.getReadme = Except.ok r →
      (applyReadme env text).1
        = [ApplyCall.getReadme,
           ApplyCall.createOrUpdateFile ("README.md")
             ("Update README.md via metadata generator") text (some r.sha)]) ∧
    (∀ (repo : Repo) (u : UserChoices) (fenv : FetchEnv) (g : GenOutputs)
       (p1 p2 : ReadmeProbe), u.continueAnyway = true →
      (runPipeline repo p1 u fenv g env).applied
        = (runPipeline repo p2 u fenv g env).applied) := by
  refine ⟨?_, ?_, ?_⟩
  · intro e he
    simp [applyReadme, readmeWriteCall, he]
  · intro r hr
    simp [applyReadme, readmeWriteCall, hr]
  · intro repo u fenv g p1 p2 hc
    unfold runPipeline
    rw [hc]
    simp only [Bool.not_true, Bool.and_false]
    by_cases hp : u.picked.isEmpty = true
    · simp [hp]
    · have hp2 : u.picked.isEmpty = false := Bool.eq_false_iff.mpr hp
      by_cases ha : (!u.applyConfirm) = true
      · simp [hp2, ha]
      · have ha2 : (!u.applyConfirm) = false := Bool.eq_false_iff.mpr ha
        simp [hp2, ha2]

theorem C6_readme_witness :
    (applyReadme applyEnvOk ("generated readme")).1
      = [ApplyCall.getReadme,
         ApplyCall.createOrUpdateFile ("README.md")
           ("Add README.md via metadata generator") ("generated readme") none] :=
  (C6_readme_fresh_lookup applyEnvOk ("generated readme")).1 () rfl

/-- C7: an error in the README sub-step is caught and reported
per-field: the run still completes with the banner and exit code 0 and
the earlier metadata and topics calls remain issued, nothing rolled
back; an error of the description/website update leaves it the only
attempted call and exits 1 through the outer catch, and an error of the
topics replacement halts after the metadata call — the README write is
never attempted — again exiting 1 with no rollback. -/
theorem C7_applyStep_error_granularity (gen : GeneratedData) (env : ApplyEnv) :
    (∀ text, gen.readme = some text → (text == "") = false →
      env.putFile = Except.error () →
      ((jsTruthyStrOpt gen.description || jsTruthyStrOpt gen.website) = true →
        env.updateRepo = Except.ok ()) →
      (∀ names, gen.topics = some names → env.replaceAllTopics = Except.ok ()) →
      applyStep gen env
        = ⟨(metaCalls gen ++ topicsCalls gen) ++ (applyReadme env text).1,
           true, true, 0⟩) ∧
    ((jsTruthyStrOpt gen.description || jsTruthyStrOpt gen.website) = true →
      env.updateRepo = Except.error () →
      applyStep gen env
        = ⟨[ApplyCall.updateRepo (jsKeepTruthy gen.description)
              (jsKeepTruthy gen.website)], false, false, 1⟩) ∧
    (∀ names, gen.topics = some names → env.replaceAllTopics = Except.error () →
      ((jsTruthyStrOpt gen.description || jsTruthyStrOpt gen.website) = true →
        env.updateRepo = Except.ok ()) →
      applyStep gen env
        = ⟨metaCalls gen ++ [ApplyCall.replaceAllTopics names], false, false, 1⟩) := by
  refine ⟨?_, ?_, ?_⟩
  · intro text hr htext hput hmeta htop
    rw [applyStep_ok_meta gen env hmeta,
      applyTopicsPhase_ok gen env (metaCalls gen) htop,
      applyReadmePhase_some gen env (metaCalls gen ++ topicsCalls gen) text hr htext,
      applyReadme_snd_error env text hput]
  · intro hm hup
    simp [applyStep, hm, hup]
  · intro names htp hrt hmeta
    rw [applyStep_ok_meta gen env hmeta]
    simp [applyTopicsPhase, htp, hrt]

theorem C7_applyStep_witness :
    applyStep genAll applyEnvMetaFail
      = ⟨[ApplyCall.updateRepo (some ("d")) (some ("w"))], false, false, 1⟩ :=
  (C7_applyStep_error_granularity genAll applyEnvMetaFail).2.1 (by decide) rfl

/-- C10: when the README write fails while every other selected call
succeeded, the run still reports the per-field error, prints the
success banner, and exits with code 0 — the same exit code as the fully
successful run, so a README write failure is not distinguishable from
full success by exit code. -/
theorem C10_readmeFailure_stillSuccess (gen : GeneratedData) (env : ApplyEnv)
    (text : String) (hr : gen.readme = some text) (htext : (text == "") = false)
    (hput : env.putFile = Except.error ())
    (hmeta : (jsTruthyStrOpt gen.description || jsTruthyStrOpt gen.website) = true →
      env.updateRepo = Except.ok ())
    (htop : ∀ names, gen.topics = some names → env.replaceAllTopics = Except.ok ()) :
    (applyStep gen env).readmeErrorReported = true ∧
    (applyStep gen env).successBanner = true ∧
    (applyStep gen env).exitCode = 0 ∧
    (applyStep gen env).exitCode
      = (applyStep gen { env with putFile := Except.ok () }).exitCode := by
  have h1 : applyStep gen env
      = ⟨(metaCalls gen ++ topicsCalls gen) ++ (applyReadme env text).1,
         true, true, 0⟩ := by
    rw [applyStep_ok_meta gen env hmeta,
      applyTopicsPhase_ok gen env (metaCalls gen) htop,
      applyReadmePhase_some gen env (metaCalls gen ++ topicsCalls gen) text hr htext,
      applyReadme_snd_error env text hput]
  have h2 : applyStep gen { env with putFile := Except.ok () }
      = ⟨(metaCalls gen ++ topicsCalls gen)
           ++ (applyReadme { env with putFile := Except.ok () } text).1,
         false, true, 0⟩ := by
    rw [applyStep_ok_meta gen { env with putFile := Except.ok () }
        (fun hm => hmeta hm),
      applyTopicsPhase_ok gen { env with putFile := Except.ok () } (metaCalls gen)
        (fun names hn => htop names hn),
      applyReadmePhase_some gen { env with putFile := Except.ok () }
        (metaCalls gen ++ topicsCalls gen) text hr htext,
      applyReadme_snd_ok { env with putFile := Except.ok () } text rfl]
  rw [h1, h2]
  exact ⟨rfl, rfl, rfl, rfl⟩

theorem C10_readmeFailure_witness :
    (applyStep genAll applyEnvReadmeFail).readmeErrorReported = true ∧
    (applyStep genAll applyEnvReadmeFail).successBanner = true ∧
    (applyStep genAll applyEnvReadmeFail).exitCode = 0 ∧
    (applyStep genAll applyEnvReadmeFail).exitCode
      = (applyStep genAll
          { applyEnvReadmeFail with putFile := Except.ok () }).exitCode :=
  C10_readmeFailure_stillSuccess genAll applyEnvReadmeFail ("r") rfl (by decide) rfl
    (fun _ => rfl) (fun _ _ => rfl)

/-- C8: the missing-field set only preselects the checkboxes — each box
is pre-checked exactly when its field key is in the set — and never
gates which fields can be generated: whenever the run proceeds past the
checkbox the generated fields are exactly the user's selection.  When
the set is empty the regeneration confirmation is asked first;
declining exits with code 0 before any checkbox, confirming shows the
checkbox with nothing preselected. -/
theorem C8_missingSet_preselects_only (repo : Repo) (p : ReadmeProbe)
    (u : UserChoices) (fenv : FetchEnv) (g : GenOutputs) (aenv : ApplyEnv) :
    ((runPipeline repo p u fenv g aenv).checkboxShown = none ∨
      (runPipeline repo p u fenv g aenv).checkboxShown
        = some (fieldChoices (computeMissing repo p))) ∧
    ((fieldChoices (computeMissing repo p)).map CheckboxChoice.checked
      = [(computeMissing repo p).contains ("description"),
         (computeMissing repo p).contains ("website"),
         (computeMissing repo p).contains ("topics"),
         (computeMissing repo p).contains ("README.md")]) ∧
    (computeMissing repo p ≠ [] →
      (runPipeline repo p u fenv g aenv).confirmRegenAsked = false) ∧
    (computeMissing repo p = [] →
      (runPipeline repo p u fenv g aenv).confirmRegenAsked = true ∧
      (u.continueAnyway = false →
        (runPipeline repo p u fenv g aenv).checkboxShown = none ∧
        (runPipeline repo p u fenv g aenv).exitCode = 0 ∧
        (runPipeline repo p u fenv g aenv).applied = none) ∧
      (u.continueAnyway = true →
        (runPipeline repo p u fenv g aenv).checkboxShown
          = some (fieldChoices []) ∧
        (fieldChoices []).all (fun c => !c.checked) = true)) ∧
    (u.picked ≠ [] → (computeMissing repo p = [] → u.continueAnyway = true) →
      (runPipeline repo p u fenv g aenv).generatorCalls
        = generatorCallOrder u.picked) := by
  refine ⟨?_, rfl, ?_, ?_, ?_⟩
  · simp only [runPipeline]
    split_ifs <;> simp
  · intro hne
    have hm : (computeMissing repo p).isEmpty = false := by
      cases hmm : computeMissing repo p with
      | nil => exact absurd hmm hne
      | cons a l => rfl
    simp only [runPipeline]
    split_ifs <;> simp_all
  · intro hm
    have hie : (computeMissing repo p).isEmpty = true := by
      rw [hm]
      rfl
    refine ⟨?_, ?_, ?_⟩
    · simp only [runPipeline]
      split_ifs <;> simp_all
    · intro hc
      simp [runPipeline, hie, hc]
    · intro hc
      constructor
      · simp only [runPipeline, hc]
        split_ifs <;> simp_all
      · decide
  · intro hp hcont
    have hp2 : u.picked.isEmpty = false := by
      cases hpp : u.picked with
      | nil => exact absurd hpp hp
      | cons a l => rfl
    by_cases h1 : ((computeMissing repo p).isEmpty && !u.continueAnyway) = true
    · exfalso
      rw [Bool.and_eq_true] at h1
      obtain ⟨he, hnc⟩ := h1
      have hm : computeMissing repo p = [] := by
        cases hmm : computeMissing repo p with
        | nil => rfl
        | cons a l =>
          rw [hmm] at he
          simp at he
      rw [hcont hm] at hnc
      exact absurd hnc (by decide)
    · have h1f : ((computeMissing repo p).isEmpty && !u.continueAnyway) = false :=
        Bool.eq_false_iff.mpr h1
      simp only [runPipeline, h1f, hp2]
      split_ifs <;> simp_all

theorem C8_missingSet_witness :
    (runPipeline repoScenarioB (Except.ok ())
        ⟨false, [("topics" : String)], true⟩
        fetchEnvFail genOutputsDemo applyEnvOk).confirmRegenAsked = true ∧
    (runPipeline repoScenarioB (Except.ok ())
        ⟨false, [("topics" : String)], true⟩
        fetchEnvFail genOutputsDemo applyEnvOk).checkboxShown = none ∧
    (runPipeline repoScenarioB (Except.ok ())
        ⟨false, [("topics" : String)], true⟩
        fetchEnvFail genOutputsDemo applyEnvOk).exitCode = 0 ∧
    (runPipeline repoScenarioB (Except.ok ())
        ⟨false, [("topics" : String)], true⟩
        fetchEnvFail genOutputsDemo applyEnvOk).applied = none := by
  have h := C8_missingSet_preselects_only repoScenarioB (Except.ok ())
    ⟨false, [("topics" : String)], true⟩ fetchEnvFail genOutputsDemo applyEnvOk
  have hm : computeMissing repoScenarioB (Except.ok ()) = [] := by decide
  obtain ⟨hask, hdec, _⟩ := h.2.2.2.1 hm
  exact ⟨hask, (hdec rfl).1, (hdec rfl).2.1, (hdec rfl).2.2⟩

/-- C9: selecting zero fields at the checkbox ends the run with exit
code 0, with the repository context never built, no text-generation
call issued, and no hosting-platform write attempted. -/
theorem C9_emptySelection_exitsClean (repo : Repo) (p : ReadmeProbe)
    (u : UserChoices) (fenv : FetchEnv) (g : GenOutputs) (aenv : ApplyEnv)
    (h : u.picked = []) :
    (runPipeline repo p u fenv g aenv).exitCode = 0 ∧
    (runPipeline repo p u fenv g aenv).context = none ∧
    (runPipeline repo p u fenv g aenv).generatorCalls = [] ∧
    (runPipeline repo p u fenv g aenv).applied = none := by
  have hp : u.picked.isEmpty = true := by
    rw [h]
    rfl
  by_cases h1 : ((computeMissing repo p).isEmpty && !u.continueAnyway) = true
  · simp [runPipeline, h1]
  · simp [runPipeline, h1, hp]

theorem C9_emptySelection_witness :
    (runPipeline repoScenarioA (Except.error (some 404)) ⟨true, [], true⟩
        fetchEnvFail genOutputsDemo applyEnvOk).exitCode = 0 ∧
    (runPipeline repoScenarioA (Except.error (some 404)) ⟨true, [], true⟩
        fetchEnvFail genOutputsDemo applyEnvOk).context = none ∧
    (runPipeline repoScenarioA (Except.error (some 404)) ⟨true, [], true⟩
        fetchEnvFail genOutputsDemo applyEnvOk).generatorCalls = [] ∧
    (runPipeline repoScenarioA (Except.error (some 404)) ⟨true, [], true⟩
        fetchEnvFail genOutputsDemo applyEnvOk).applied = none :=
  C9_emptySelection_exitsClean repoScenarioA (Except.error (some 404))
    ⟨true, [], true⟩ fetchEnvFail genOutputsDemo applyEnvOk rfl

end MetaGen
